import Mathlib

/-!
Verification development for the FILTER_AWS map-dashboard overlay server
(`app_server.py`).  The Python source is shallowly embedded below:

* the GeoJSON store (`_load_from_single_path`, `load_geojson`) becomes a
  pure state-passing model with an explicit cache, a per-attempt read
  oracle, and an explicit record of sleeps and attempted paths;
* the CRS resolver (`guess_epsg_from_geojson`) is embedded including a
  model of the regex search `EPSG(?:::|:)[^0-9]*(\d+)` (case-insensitive,
  modelled as a case-sensitive scan over the uppercased name, since
  the surrounding code uppercases the name for the alias checks);
* the reprojector (`transform_coords`, `reproject_feature_geometry`)
  recurses over a model of the dynamic JSON coordinate values;
* the indicator resolver and dataset catalog of `precinct_overlay` are
  transcribed literally;
* the overlay loop is embedded over a discrete model of planar geometry:
  a geometry is a finite set of unit grid cells, area is the cell count,
  and shapely intersection/union are set intersection/union (the
  area-theoretic facts the code relies on - the area of an intersection
  is at most the area of either operand - hold exactly in this model).
-/

/-! ## GeoJSON store: `_load_from_single_path` and `load_geojson` -/

/-- Outcome class of one `open`/`json.load` attempt that raised.
`os eno` models an `OSError` (which includes the builtin `TimeoutError`)
carrying `errno = eno` (`none` models `errno is None`); `other` models any
non-`OSError` exception (caught by the bare `except Exception`). -/
inductive ReadErr where
  | os (eno : Option Nat)
  | other
deriving DecidableEq

/-- Result of one read attempt of the file at a path. -/
inductive ReadResult (α : Type) where
  | ok (d : α)
  | err (e : ReadErr)
deriving DecidableEq

/-- Error escaping the loader: either `os.path.getmtime` raised, or the
retry loops last error is re-raised, or `raise last_err` with no recorded
error (unreachable: the candidate list is never empty). -/
inductive PyErr where
  | getmtimeRaise
  | read (e : ReadErr)
  | raiseNone
deriving DecidableEq

/-- `errno.ETIMEDOUT` (symbolic; 110 on Linux). -/
def ETIMEDOUT : Nat := 110

/-- `_GEOJSON_MAX_IO_RETRIES = 5`. -/
def GEOJSON_MAX_IO_RETRIES : Nat := 5

/-- Model of one file on disk: the current modification time as observed by
`os.path.getmtime` (`none` models `getmtime` raising, e.g. a missing file),
and the outcome of the i-th open-and-parse attempt within one call. -/
structure FileModel (α : Type) where
  mtime : Option ℚ
  read : Nat → ReadResult α

/-- One `_GEOJSON_CACHE` entry: `{'mtime': mtime, 'data': data}`. -/
structure CacheEntry (α : Type) where
  mtime : ℚ
  data : α
deriving DecidableEq

/-- The cache `_GEOJSON_CACHE`, keyed by absolute path. -/
def Cache (α : Type) : Type := List (String × CacheEntry α)

/-- Cache lookup (`_GEOJSON_CACHE.get(abs_path)`). -/
def cacheGet (c : Cache α) (path : String) : Option (CacheEntry α) :=
  List.lookup path c

/-- Cache insert (`_GEOJSON_CACHE[abs_path] = {...}`). -/
def cacheSet (c : Cache α) (path : String) (e : CacheEntry α) : Cache α :=
  (path, e) :: (c.filter fun kv => !(kv.1 == path))

/-- Output of the retry loop of `_load_from_single_path`: the data or the
last error, the sleeps performed between attempts, and how many read
attempts were made. -/
structure RetryOut (α : Type) where
  result : Except ReadErr α
  sleeps : List ℚ
  reads : Nat

/-- The `for attempt in range(1, _GEOJSON_MAX_IO_RETRIES + 1)` loop.
`fuel` is the number of loop iterations still available
(`GEOJSON_MAX_IO_RETRIES + 1 - attempt`); the `fuel = 0` arm is
unreachable because the loop breaks at `attempt = GEOJSON_MAX_IO_RETRIES`.
On an `OSError` whose errno is not `ETIMEDOUT`, or on any other exception,
the loop records the error and breaks; on a timeout it sleeps `backoff`
seconds and continues with `backoff = min(backoff * 1.7, 2.5)`. -/
def retryReadAux (read : Nat → ReadResult α) : Nat → Nat → ℚ → RetryOut α
  | 0, _, _ => ⟨.error .other, [], 0⟩
  | fuel + 1, attempt, backoff =>
    match read attempt with
    | .ok d => ⟨.ok d, [], 1⟩
    | .err (.os eno) =>
      -- `if isinstance(err, OSError) and err.errno not in (errno.ETIMEDOUT,)`
      if eno ≠ some ETIMEDOUT then ⟨.error (.os eno), [], 1⟩
      else if attempt = GEOJSON_MAX_IO_RETRIES then ⟨.error (.os eno), [], 1⟩
      else
        let rest := retryReadAux read fuel (attempt + 1) (min (backoff * (17/10)) (5/2))
        ⟨rest.result, backoff :: rest.sleeps, rest.reads + 1⟩
    | .err .other => ⟨.error .other, [], 1⟩

/-- The retry loop as entered by `_load_from_single_path`:
attempt 1, `backoff = 0.3`. -/
def retryRead (read : Nat → ReadResult α) : RetryOut α :=
  retryReadAux read GEOJSON_MAX_IO_RETRIES 1 (3/10)

/-- Output of `_load_from_single_path`: result, the cache after the call,
sleeps performed, read attempts made. -/
structure SingleLoadOut (α : Type) where
  result : Except PyErr α
  cache : Cache α
  sleeps : List ℚ
  reads : Nat

/-- The part of `_load_from_single_path` after the cache check: run the
retry loop; on success store `{mtime, data}` in the cache and return the
data; on failure return the initially looked-up cache entry (stale-cache
fallback) when one exists, else re-raise the last error. -/
def loadAttemptPhase (fm : FileModel α) (path : String) (cache : Cache α)
    (mt : ℚ) (cached : Option (CacheEntry α)) : SingleLoadOut α :=
  let r := retryRead fm.read
  match r.result with
  | .ok d => ⟨.ok d, cacheSet cache path ⟨mt, d⟩, r.sleeps, r.reads⟩
  | .error e =>
    match cached with
    | some ce => ⟨.ok ce.data, cache, r.sleeps, r.reads⟩
    | none => ⟨.error (.read e), cache, r.sleeps, r.reads⟩

/-- `_load_from_single_path(abs_path)`: `getmtime` first (an exception
there propagates before the cache is consulted); a cached entry with the
current mtime is returned as-is; otherwise the retry loop runs. -/
def load_from_single_path (fm : FileModel α) (path : String) (cache : Cache α) :
    SingleLoadOut α :=
  match fm.mtime with
  | none => ⟨.error .getmtimeRaise, cache, [], 0⟩
  | some mt =>
    match cacheGet cache path with
    | some ce =>
      if ce.mtime = mt then ⟨.ok ce.data, cache, [], 0⟩
      else loadAttemptPhase fm path cache mt (some ce)
    | none => loadAttemptPhase fm path cache mt none

/-- Environment of `load_geojson`: the files on disk, whether the
requested path lies under `DATA_DIR` (`public/data`), and whether the
mirrored path under `build/data` exists. -/
structure LoadEnv (α : Type) where
  files : String → FileModel α
  underDataDir : Bool
  altPath : String
  altExists : Bool

/-- Output of `load_geojson`: result, final cache, the candidate paths
actually attempted (in order), total sleeps and total read attempts. -/
structure GeoLoadOut (α : Type) where
  result : Except PyErr α
  cache : Cache α
  tried : List String
  sleeps : List ℚ
  reads : Nat

/-- The `for candidate in candidates` loop of `load_geojson`: try each
candidate with `_load_from_single_path`, remembering the last error; if
every candidate fails, re-raise the last error. -/
def loadCandidates (env : LoadEnv α) : List String → Cache α → Option PyErr → GeoLoadOut α
  | [], cache, lastErr => ⟨.error (lastErr.getD .raiseNone), cache, [], [], 0⟩
  | c :: rest, cache, _ =>
    let out := load_from_single_path (env.files c) c cache
    match out.result with
    | .ok d => ⟨.ok d, out.cache, [c], out.sleeps, out.reads⟩
    | .error e =>
      let r := loadCandidates env rest out.cache (some e)
      ⟨r.result, r.cache, c :: r.tried, out.sleeps ++ r.sleeps, out.reads + r.reads⟩

/-- `load_geojson(path)`: candidates are the requested path, followed by
the same relative path under `build/data` when the requested path lies
under `public/data` and that mirror exists. -/
def load_geojson (env : LoadEnv α) (path : String) (cache : Cache α) : GeoLoadOut α :=
  let candidates := path :: (if env.underDataDir && env.altExists then [env.altPath] else [])
  loadCandidates env candidates cache none

/-! ## CRS resolver: `guess_epsg_from_geojson` -/

/-- Characters of a string literal. -/
def strL (s : String) : List Char := s.data

/-- Python `str.upper()` (basic-latin model, as in the source data). -/
def pyUpper (l : List Char) : List Char := l.map Char.toUpper

/-- Python `sub in s` substring test. -/
def listContains : List Char → List Char → Bool
  | [], pat => pat.isEmpty
  | c :: rest, pat => pat.isPrefixOf (c :: rest) || listContains rest pat

/-- The `[^0-9]*(\d+)` part of the regex: skip characters up to the first
digit and capture the maximal digit run there (`none` when no digit
follows). -/
def firstDigitRun : List Char → Option (List Char)
  | [] => none
  | c :: cs => if c.isDigit then some (c :: cs.takeWhile Char.isDigit) else firstDigitRun cs

/-- `int` of a digit string. -/
def digitsToNat (l : List Char) : Nat :=
  l.foldl (fun acc c => 10 * acc + (c.toNat - 48)) 0

/-- `re.search(r"EPSG(?:::|:)[^0-9]*(\d+)", name, re.IGNORECASE)`, modelled
over the uppercased name: the leftmost position bearing `EPSG:` such that
a digit occurs somewhere after it matches, and the first maximal digit run
after the colon is captured.  (The `::` alternative needs no separate
case: its extra `:` is consumed by `[^0-9]*`.) -/
def epsgSearch : List Char → Option Nat
  | [] => none
  | c :: cs =>
    if (strL "EPSG:").isPrefixOf (c :: cs) then
      match firstDigitRun (List.drop 5 (c :: cs)) with
      | some ds => some (digitsToNat ds)
      | none => epsgSearch cs
    else epsgSearch cs

/-- `guess_epsg_from_geojson(fc)`.  The argument models
`(fc.get('crs', {}).get('properties', {}) or {}).get('name', '')`:
`none` when the collection lacks a `crs` tag (or its `properties`/`name`),
in which case the name defaults to the empty string. -/
def guess_epsg_from_geojson (crsName : Option (List Char)) : Nat :=
  let name := crsName.getD []
  let upper := pyUpper name
  match epsgSearch upper with
  | some n => n
  | none =>
    if listContains upper (strL "CRS84") then 4326
    else if listContains upper (strL "EPSG::4283") || listContains upper (strL "EPSG:4283")
        || listContains upper (strL "GDA94") then 4283
    else if listContains upper (strL "EPSG::7844") || listContains upper (strL "EPSG:7844")
        || listContains upper (strL "GDA2020") then 7844
    else 4326

/-! ## Retry-loop lemmas -/

theorem retry_all_timeout (read : Nat → ReadResult α)
    (h : ∀ i, 1 ≤ i → i ≤ 5 → read i = .err (.os (some ETIMEDOUT))) :
    retryRead read = ⟨.error (.os (some ETIMEDOUT)),
      [3/10, 51/100, 867/1000, 14739/10000], 5⟩ := by
  have h1 := h 1 (by norm_num) (by norm_num)
  have h2 := h 2 (by norm_num) (by norm_num)
  have h3 := h 3 (by norm_num) (by norm_num)
  have h4 := h 4 (by norm_num) (by norm_num)
  have h5 := h 5 (by norm_num) (by norm_num)
  simp only [retryRead, GEOJSON_MAX_IO_RETRIES]
  simp [retryReadAux, ETIMEDOUT, GEOJSON_MAX_IO_RETRIES, h1, h2, h3, h4, h5]
  norm_num

theorem retry_fails (read : Nat → ReadResult α)
    (h : ∀ i, ∃ e, read i = .err e) :
    ∀ (fuel a : Nat) (b : ℚ), ∃ e, (retryReadAux read fuel a b).result = .error e := by
  intro fuel
  induction fuel with
  | zero => intro a b; exact ⟨.other, rfl⟩
  | succ fuel ih =>
    intro a b
    obtain ⟨e, he⟩ := h a
    cases e with
    | os eno =>
      by_cases hto : eno = some ETIMEDOUT
      · subst hto
        by_cases hmax : a = GEOJSON_MAX_IO_RETRIES
        · subst hmax
          exact ⟨.os (some ETIMEDOUT), by simp [retryReadAux, he]⟩
        · obtain ⟨e2, he2⟩ := ih (a + 1) (min (b * (17/10)) (5/2))
          exact ⟨e2, by simp [retryReadAux, he, hmax, he2]⟩
      · exact ⟨.os eno, by simp [retryReadAux, he, hto]⟩
    | other => exact ⟨.other, by simp [retryReadAux, he]⟩

theorem retry_ok_read (read : Nat → ReadResult α) (d : α) :
    ∀ (fuel a : Nat) (b : ℚ), (retryReadAux read fuel a b).result = .ok d →
    ∃ k, read k = .ok d := by
  intro fuel
  induction fuel with
  | zero => intro a b hk; simp [retryReadAux] at hk
  | succ fuel ih =>
    intro a b hk
    rcases hr : read a with d' | e
    · refine ⟨a, ?_⟩
      rw [hr]
      simp only [retryReadAux, hr] at hk
      simp_all
    · cases e with
      | os eno =>
        by_cases hto : eno = some ETIMEDOUT
        · subst hto
          by_cases hmax : a = GEOJSON_MAX_IO_RETRIES
          · subst hmax
            simp [retryReadAux, hr] at hk
          · simp only [retryReadAux, hr, hmax] at hk
            simp [hmax] at hk
            exact ih (a + 1) (min (b * (17/10)) (5/2)) hk
        · simp [retryReadAux, hr, hto] at hk
      | other => simp [retryReadAux, hr] at hk

theorem retry_succeeds (read : Nat → ReadResult α) (d : α) :
    ∀ (k a : Nat) (b : ℚ), 1 ≤ a → a + k ≤ 5 →
    (∀ i, a ≤ i → i < a + k → read i = .err (.os (some ETIMEDOUT))) →
    read (a + k) = .ok d →
    (retryReadAux read (6 - a) a b).result = .ok d ∧
    (retryReadAux read (6 - a) a b).reads = k + 1 ∧
    (retryReadAux read (6 - a) a b).sleeps.length = k := by
  intro k
  induction k with
  | zero =>
    intro a b ha hle hfail hok
    obtain ⟨m, hm⟩ : ∃ m, 6 - a = m + 1 := ⟨5 - a, by omega⟩
    rw [hm]
    rw [Nat.add_zero] at hok
    simp [retryReadAux, hok]
  | succ k ih =>
    intro a b ha hle hfail hok
    have hra : read a = .err (.os (some ETIMEDOUT)) := hfail a le_rfl (by omega)
    obtain ⟨m, hm⟩ : ∃ m, 6 - a = m + 1 := ⟨5 - a, by omega⟩
    have hm2 : m = 6 - (a + 1) := by omega
    have hmax : ¬ (a = GEOJSON_MAX_IO_RETRIES) := by
      simp only [GEOJSON_MAX_IO_RETRIES]; omega
    have ihs := ih (a + 1) (min (b * (17/10)) (5/2)) (by omega) (by omega)
      (fun i h1 h2 => hfail i (by omega) (by omega))
      (by rw [show a + 1 + k = a + (k + 1) from by omega]; exact hok)
    rw [hm]
    subst hm2
    simp only [retryReadAux, hra, hmax]
    simp [hmax]
    have h5a : (5 : Nat) - a = 6 - (a + 1) := by omega
    rw [h5a]
    exact ⟨ihs.1, ihs.2.1, ihs.2.2⟩

theorem loadAttemptPhase_ok (fm : FileModel α) (path : String) (cache : Cache α)
    (mt : ℚ) (cached : Option (CacheEntry α)) (d : α)
    (h : (retryRead fm.read).result = .ok d) :
    loadAttemptPhase fm path cache mt cached =
      ⟨.ok d, cacheSet cache path ⟨mt, d⟩,
        (retryRead fm.read).sleeps, (retryRead fm.read).reads⟩ := by
  simp only [loadAttemptPhase]
  rw [h]

theorem loadAttemptPhase_err_stale (fm : FileModel α) (path : String) (cache : Cache α)
    (mt : ℚ) (ce : CacheEntry α) (e : ReadErr)
    (h : (retryRead fm.read).result = .error e) :
    loadAttemptPhase fm path cache mt (some ce) =
      ⟨.ok ce.data, cache, (retryRead fm.read).sleeps, (retryRead fm.read).reads⟩ := by
  simp only [loadAttemptPhase]
  rw [h]

theorem loadAttemptPhase_err_none (fm : FileModel α) (path : String) (cache : Cache α)
    (mt : ℚ) (e : ReadErr)
    (h : (retryRead fm.read).result = .error e) :
    loadAttemptPhase fm path cache mt none =
      ⟨.error (.read e), cache, (retryRead fm.read).sleeps, (retryRead fm.read).reads⟩ := by
  simp only [loadAttemptPhase]
  rw [h]

/-- Claim C2: when loading a GeoJSON path, a transient timeout-class I/O
error (an `OSError` with `errno = ETIMEDOUT`) is retried up to 5 attempts
with a sleep starting at 0.3s, multiplied by 1.7 each attempt and capped
at 2.5s; a non-timeout OS-level error, or any other exception, aborts
retrying immediately; and a read that fails with timeouts on its first
N - 1 attempts and succeeds on attempt N (N ≤ 5) makes `load_geojson`
return that content after exactly N attempts without consulting the
fallback directory. -/
theorem C2_retry_policy :
    (∀ (α : Type) (read : Nat → ReadResult α),
      (∀ i, 1 ≤ i → i ≤ 5 → read i = .err (.os (some ETIMEDOUT))) →
      retryRead read = ⟨.error (.os (some ETIMEDOUT)),
          [3/10, 51/100, 867/1000, 14739/10000], 5⟩ ∧
      (retryRead read).sleeps.head? = some (3/10) ∧
      List.Chain' (fun x y => y = min (x * (17/10)) (5/2)) (retryRead read).sleeps ∧
      (∀ q ∈ (retryRead read).sleeps, q ≤ 5/2)) ∧
    (∀ (α : Type) (read : Nat → ReadResult α) (e : ReadErr),
      read 1 = .err e → e ≠ .os (some ETIMEDOUT) →
      retryRead read = ⟨.error e, [], 1⟩) ∧
    (∀ (α : Type) (env : LoadEnv α) (path : String) (cache : Cache α)
        (mt : ℚ) (d : α) (N : Nat),
      cacheGet cache path = none →
      (env.files path).mtime = some mt →
      1 ≤ N → N ≤ 5 →
      (∀ i, 1 ≤ i → i < N → (env.files path).read i = .err (.os (some ETIMEDOUT))) →
      (env.files path).read N = .ok d →
      (load_geojson env path cache).result = .ok d ∧
      (load_geojson env path cache).tried = [path] ∧
      (load_geojson env path cache).reads = N) := by
  refine ⟨?parta, ?partb, ?partc⟩
  case parta =>
    intro α read h
    have heq := retry_all_timeout read h
    refine ⟨heq, by rw [heq]; rfl, ?_, ?_⟩
    · rw [heq]
      simp [List.chain'_cons]
      norm_num
    · intro q hq
      rw [heq] at hq
      simp at hq
      rcases hq with h | h | h | h <;> rw [h] <;> norm_num
  case partb =>
    intro α read e h1 hne
    cases e with
    | os eno =>
      have : eno ≠ some ETIMEDOUT := by
        intro hcon; exact hne (by rw [hcon])
      simp [retryRead, retryReadAux, GEOJSON_MAX_IO_RETRIES, h1, this]
    | other => simp [retryRead, retryReadAux, GEOJSON_MAX_IO_RETRIES, h1]
  case partc =>
    intro α env path cache mt d N hcache hmt h1 h5 hfail hok
    have hs := retry_succeeds (env.files path).read d (N - 1) 1 (3/10) le_rfl
      (by omega) (fun i hi1 hi2 => hfail i hi1 (by omega))
      (by rw [show 1 + (N - 1) = N from by omega]; exact hok)
    have h61 : (6 : Nat) - 1 = GEOJSON_MAX_IO_RETRIES := rfl
    rw [h61] at hs
    have hres : (retryRead (env.files path).read).result = .ok d := hs.1
    have hreads : (retryRead (env.files path).read).reads = N := by
      rw [retryRead, hs.2.1]; omega
    have hsingle : load_from_single_path (env.files path) path cache =
        ⟨.ok d, cacheSet cache path ⟨mt, d⟩,
          (retryRead (env.files path).read).sleeps,
          (retryRead (env.files path).read).reads⟩ := by
      simp only [load_from_single_path, hmt, hcache]
      exact loadAttemptPhase_ok _ _ _ _ _ _ hres
    simp only [load_geojson, loadCandidates, hsingle]
    exact ⟨trivial, trivial, hreads⟩

/-- Witness for C2 at concrete inputs: a read oracle that times out on
attempts 1 and 2 and succeeds on attempt 3, an always-timing-out oracle,
and an immediately-aborting oracle. -/
theorem C2_retry_policy_witness :
    (retryRead (fun _ => (.err (.os (some ETIMEDOUT)) : ReadResult Nat))
      = ⟨.error (.os (some ETIMEDOUT)), [3/10, 51/100, 867/1000, 14739/10000], 5⟩) ∧
    (retryRead (fun _ => (.err .other : ReadResult Nat)) = ⟨.error .other, [], 1⟩) ∧
    ((load_geojson
        ⟨fun _ => ⟨some 1, fun i => if i < 3 then .err (.os (some ETIMEDOUT)) else .ok 42⟩,
          true, "alt", true⟩ "p" ([] : Cache Nat)).result = .ok 42 ∧
      (load_geojson
        ⟨fun _ => ⟨some 1, fun i => if i < 3 then .err (.os (some ETIMEDOUT)) else .ok 42⟩,
          true, "alt", true⟩ "p" ([] : Cache Nat)).tried = ["p"] ∧
      (load_geojson
        ⟨fun _ => ⟨some 1, fun i => if i < 3 then .err (.os (some ETIMEDOUT)) else .ok 42⟩,
          true, "alt", true⟩ "p" ([] : Cache Nat)).reads = 3) := by
  refine ⟨?_, ?_, ?_⟩
  · exact (C2_retry_policy.1 Nat _ (fun i _ _ => rfl)).1
  · exact C2_retry_policy.2.1 Nat _ .other rfl (by simp)
  · exact C2_retry_policy.2.2 Nat _ "p" [] 1 42 3 rfl rfl (by norm_num) (by norm_num)
      (fun i hi1 hi2 => by
        have : i < 3 := hi2
        simp [this])
      (by norm_num)

/-- Claim C9: a failed single-path load is atomic with respect to the
cache: the cache entry for a path is written only after a read attempt
has succeeded, so when the call raises an error the cache is exactly what
it was before the call; conversely any cache change comes with a
successful fresh read whose parsed data is both returned and stored. -/
theorem C9_cache_atomicity :
    ∀ (α : Type) (fm : FileModel α) (path : String) (cache : Cache α),
      (∀ e, (load_from_single_path fm path cache).result = .error e →
        (load_from_single_path fm path cache).cache = cache) ∧
      ((load_from_single_path fm path cache).cache ≠ cache →
        ∃ d mt, fm.mtime = some mt ∧
          (∃ k, fm.read k = .ok d) ∧
          (load_from_single_path fm path cache).result = .ok d ∧
          (load_from_single_path fm path cache).cache = cacheSet cache path ⟨mt, d⟩) := by
  intro α fm path cache
  rcases hmt : fm.mtime with _ | mt
  · constructor
    · intro e _
      simp [load_from_single_path, hmt]
    · intro hne
      exact absurd (by simp [load_from_single_path, hmt]) hne
  · rcases hc : cacheGet cache path with _ | ce
    · rcases hr : (retryRead fm.read).result with e | d
      · have heq := loadAttemptPhase_err_none fm path cache mt e hr
        constructor
        · intro e2 _
          simp [load_from_single_path, hmt, hc, heq]
        · intro hne
          exact absurd (by simp [load_from_single_path, hmt, hc, heq]) hne
      · have heq := loadAttemptPhase_ok fm path cache mt none d hr
        constructor
        · intro e he
          rw [load_from_single_path] at he
          simp only [hmt, hc, heq] at he
          simp at he
        · intro _
          refine ⟨d, mt, rfl, retry_ok_read fm.read d _ _ _ hr, ?_, ?_⟩ <;>
            simp [load_from_single_path, hmt, hc, heq]
    · by_cases hmtime : ce.mtime = mt
      · constructor
        · intro e he
          rw [load_from_single_path] at he
          simp only [hmt, hc, if_pos hmtime] at he
          simp at he
        · intro hne
          exact absurd (by simp [load_from_single_path, hmt, hc, if_pos hmtime]) hne
      · rcases hr : (retryRead fm.read).result with e | d
        · have heq := loadAttemptPhase_err_stale fm path cache mt ce e hr
          constructor
          · intro e2 he
            rw [load_from_single_path] at he
            simp only [hmt, hc, if_neg hmtime, heq] at he
            simp at he
          · intro hne
            exact absurd (by simp [load_from_single_path, hmt, hc, if_neg hmtime, heq]) hne
        · have heq := loadAttemptPhase_ok fm path cache mt (some ce) d hr
          constructor
          · intro e he
            rw [load_from_single_path] at he
            simp only [hmt, hc, if_neg hmtime, heq] at he
            simp at he
          · intro _
            refine ⟨d, mt, rfl, retry_ok_read fm.read d _ _ _ hr, ?_, ?_⟩ <;>
              simp [load_from_single_path, hmt, hc, if_neg hmtime, heq]

/-- Witness for C9 at a concrete failing load: a file whose read always
raises a non-OS exception, an empty cache; the call errors and the cache
stays empty. -/
theorem C9_cache_atomicity_witness :
    (load_from_single_path ⟨some 1, fun _ => (.err .other : ReadResult Nat)⟩ "p" []).cache
      = ([] : Cache Nat) :=
  (C9_cache_atomicity Nat ⟨some 1, fun _ => .err .other⟩ "p" []).1 (.read .other) (by
    have hb := C2_retry_policy.2.1 Nat (fun _ => (.err .other : ReadResult Nat)) .other rfl (by simp)
    simp [load_from_single_path, cacheGet, loadAttemptPhase, hb])

/-- A file that always times out (C3 example). -/
def fileTimeoutC3 : FileModel Nat := ⟨some 1, fun _ => .err (.os (some ETIMEDOUT))⟩

/-- A file that always reads successfully with content 42 (C3 example). -/
def fileOkC3 : FileModel Nat := ⟨some 1, fun _ => .ok 42⟩

/-- Environment where the primary path "p" persistently times out while the
fallback path "alt" under the build-data root exists and reads fine. -/
def envC3 : LoadEnv Nat := ⟨fun p => if p = "p" then fileTimeoutC3 else fileOkC3, true, "alt", true⟩

/-- Cache holding a stale entry (mtime 2 versus current 1) for "p" with
previously parsed content 7. -/
def cacheC3 : Cache Nat := [("p", ⟨2, 7⟩)]

/-- Counterexample to claim C3: the stale-cache fallback is NOT consulted
only after all path attempts are exhausted.  With a stale cache entry for
the primary path, the loader returns the stale content after the primary
path fails, and never attempts the fallback path - even though the
fallback would have succeeded with fresh content 42. -/
theorem C3_counterexample :
    (load_geojson envC3 "p" cacheC3).result = .ok 7 ∧
    (load_geojson envC3 "p" cacheC3).tried = ["p"] ∧
    (load_from_single_path (envC3.files "alt") "alt" cacheC3).result = .ok 42 ∧
    (7 : Nat) ≠ 42 :=
  ⟨rfl, rfl, rfl, by decide⟩

/-- Claim C3 (amended): the stale-cache fallback operates per path, inside
the single-path loader, not after all candidates: (i) when the requested
path has a cache entry (with outdated mtime) and every read attempt on it
fails, `load_geojson` returns the stale entry immediately and the fallback
path is never attempted; (ii) when the failing paths have no applicable
cache entry, the primary and then the fallback candidate are attempted and
the last (fallback) error is propagated. -/
theorem C3_stale_cache_per_path :
    (∀ (α : Type) (env : LoadEnv α) (path : String) (cache : Cache α)
        (ce : CacheEntry α) (mt : ℚ),
      cacheGet cache path = some ce →
      (env.files path).mtime = some mt →
      ce.mtime ≠ mt →
      (∀ i, ∃ e, (env.files path).read i = .err e) →
      (load_geojson env path cache).result = .ok ce.data ∧
      (load_geojson env path cache).tried = [path]) ∧
    (∀ (α : Type) (env : LoadEnv α) (path : String) (cache : Cache α) (e1 e2 : PyErr),
      env.underDataDir = true → env.altExists = true →
      (load_from_single_path (env.files path) path cache).result = .error e1 →
      (load_from_single_path (env.files env.altPath) env.altPath
          (load_from_single_path (env.files path) path cache).cache).result = .error e2 →
      (load_geojson env path cache).result = .error e2 ∧
      (load_geojson env path cache).tried = [path, env.altPath]) := by
  constructor
  · intro α env path cache ce mt hc hmt hne hfail
    obtain ⟨e, he⟩ := retry_fails (env.files path).read hfail GEOJSON_MAX_IO_RETRIES 1 (3/10)
    have he2 : (retryRead (env.files path).read).result = .error e := he
    have hsingle : load_from_single_path (env.files path) path cache =
        ⟨.ok ce.data, cache, (retryRead (env.files path).read).sleeps,
          (retryRead (env.files path).read).reads⟩ := by
      simp only [load_from_single_path, hmt, hc, if_neg hne]
      exact loadAttemptPhase_err_stale _ _ _ _ _ _ he2
    simp only [load_geojson, loadCandidates, hsingle]
    exact ⟨trivial, trivial⟩
  · intro α env path cache e1 e2 hu ha h1 h2
    simp only [load_geojson, hu, ha, Bool.and_self, if_pos]
    simp only [loadCandidates]
    rw [h1, h2]
    simp

/-- Witness for the amended C3 at concrete inputs: part (i) on the
counterexample environment, and part (ii) on an environment where the
primary raises a non-OS error and the fallback an OS error. -/
theorem C3_stale_cache_per_path_witness :
    ((load_geojson envC3 "p" cacheC3).result = .ok 7 ∧
      (load_geojson envC3 "p" cacheC3).tried = ["p"]) ∧
    ((load_geojson
        ⟨fun p => if p = "q" then ⟨some 1, fun _ => (.err .other : ReadResult Nat)⟩
            else ⟨some 1, fun _ => .err (.os none)⟩, true, "alt", true⟩
        "q" []).result = .error (.read (.os none)) ∧
      (load_geojson
        ⟨fun p => if p = "q" then ⟨some 1, fun _ => (.err .other : ReadResult Nat)⟩
            else ⟨some 1, fun _ => .err (.os none)⟩, true, "alt", true⟩
        "q" []).tried = ["q", "alt"]) := by
  constructor
  · exact C3_stale_cache_per_path.1 Nat envC3 "p" cacheC3 ⟨2, 7⟩ 1 rfl rfl (by norm_num)
      (fun i => ⟨.os (some ETIMEDOUT), rfl⟩)
  · exact C3_stale_cache_per_path.2 Nat
      ⟨fun p => if p = "q" then ⟨some 1, fun _ => (.err .other : ReadResult Nat)⟩
          else ⟨some 1, fun _ => .err (.os none)⟩, true, "alt", true⟩
      "q" [] (.read .other) (.read (.os none)) rfl rfl rfl rfl

/-! ## CRS resolver lemmas -/

theorem toUpper_eq_self_of_isDigit (c : Char) (h : c.isDigit = true) : c.toUpper = c := by
  simp [Char.isDigit] at h
  have h2 : c.toNat ≤ 57 := UInt32.toNat_le_of_le (by norm_num) h.2
  simp only [Char.toUpper]
  rw [if_neg]
  omega

theorem pyUpper_digits (ds : List Char) (h : ∀ c ∈ ds, c.isDigit = true) :
    pyUpper ds = ds := by
  induction ds with
  | nil => rfl
  | cons d rest ih =>
    simp only [pyUpper, List.map_cons]
    rw [toUpper_eq_self_of_isDigit d (h d (by simp))]
    have := ih (fun c hc => h c (by simp [hc]))
    simp only [pyUpper] at this
    rw [this]

theorem takeWhile_digits (ds : List Char) (h : ∀ c ∈ ds, c.isDigit = true) :
    ds.takeWhile Char.isDigit = ds := by
  induction ds with
  | nil => rfl
  | cons d rest ih =>
    rw [List.takeWhile_cons]
    rw [h d (by simp)]
    simp [ih (fun c hc => h c (by simp [hc]))]

theorem firstDigitRun_all_digits (d : Char) (rest : List Char)
    (h : ∀ c ∈ d :: rest, c.isDigit = true) :
    firstDigitRun (d :: rest) = some (d :: rest) := by
  rw [firstDigitRun]
  rw [h d (by simp)]
  simp [takeWhile_digits rest (fun c hc => h c (by simp [hc]))]

theorem firstDigitRun_isSome (l : List Char) (h : ∃ c, c ∈ l ∧ c.isDigit = true) :
    (firstDigitRun l).isSome = true := by
  induction l with
  | nil => obtain ⟨c, hc, _⟩ := h; simp at hc
  | cons a rest ih =>
    obtain ⟨c, hc, hd⟩ := h
    rw [firstDigitRun]
    by_cases ha : a.isDigit = true
    · simp [ha]
    · rcases List.mem_cons.mp hc with rfl | hmem
      · exact absurd hd ha
      · simp [ha]
        exact ih ⟨c, hmem, hd⟩

theorem epsgSearch_cons_eq (c : Char) (cs : List Char) :
    epsgSearch (c :: cs) =
      if (strL "EPSG:").isPrefixOf (c :: cs) = true then
        match firstDigitRun (List.drop 5 (c :: cs)) with
        | some ds => some (digitsToNat ds)
        | none => epsgSearch cs
      else epsgSearch cs := rfl

theorem epsgSearch_isSome_cons (c : Char) (cs : List Char)
    (h : (epsgSearch cs).isSome = true) : (epsgSearch (c :: cs)).isSome = true := by
  by_cases hp : (strL "EPSG:").isPrefixOf (c :: cs) = true
  · cases hfd : firstDigitRun (List.drop 4 cs) <;>
      simp [epsgSearch, hp, hfd, h]
  · simp [epsgSearch, hp, h]

theorem epsgSearch_isSome_of_contains (t : List Char) (hdig : ∃ c, c ∈ t ∧ c.isDigit = true) :
    ∀ s : List Char, listContains s (strL "EPSG:" ++ t) = true →
    (epsgSearch s).isSome = true := by
  intro s
  induction s with
  | nil => intro h; simp [listContains, strL] at h
  | cons c cs ih =>
    intro h
    rw [listContains] at h
    rcases (Bool.or_eq_true _ _).mp h with hpre | hcont
    · obtain ⟨u, hu⟩ := List.isPrefixOf_iff_prefix.mp hpre
      obtain ⟨d, hd, hd2⟩ := hdig
      have hfd : (firstDigitRun (t ++ u)).isSome = true :=
        firstDigitRun_isSome _ ⟨d, List.mem_append_left _ hd, hd2⟩
      obtain ⟨ds, hds⟩ := Option.isSome_iff_exists.mp hfd
      rw [← hu]
      have hc1 : (strL "EPSG:").isPrefixOf ('E' :: 'P' :: 'S' :: 'G' :: ':' :: (t ++ u))
          = true := by
        simp [strL, List.isPrefixOf]
      have hgoal : strL "EPSG:" ++ t ++ u = 'E' :: 'P' :: 'S' :: 'G' :: ':' :: (t ++ u) := by
        simp [strL]
      rw [hgoal, epsgSearch_cons_eq, if_pos hc1]
      have hdrop : List.drop 5 ('E' :: 'P' :: 'S' :: 'G' :: ':' :: (t ++ u)) = t ++ u := rfl
      rw [hdrop, hds]
      rfl
    · exact epsgSearch_isSome_cons c cs (ih hcont)

theorem guess_epsg_eq_of_search (name : List Char) (n : Nat)
    (h : epsgSearch (pyUpper name) = some n) :
    guess_epsg_from_geojson (some name) = n := by
  simp only [guess_epsg_from_geojson, Option.getD_some]
  rw [h]

theorem epsgSearch_head_digits (tail : List Char) (ds : List Char)
    (htail : firstDigitRun tail = some ds) :
    epsgSearch ('E' :: 'P' :: 'S' :: 'G' :: ':' :: tail) = some (digitsToNat ds) := by
  rw [epsgSearch_cons_eq, if_pos (by simp [strL, List.isPrefixOf])]
  have hdrop : List.drop 5 ('E' :: 'P' :: 'S' :: 'G' :: ':' :: tail) = tail := rfl
  rw [hdrop, htail]

/-- Claim C4: `guessEpsg` applies, in order, (1) the regex for an embedded
numeric EPSG code, returning the captured number, (2) the literal alias
checks `CRS84` (4326), `EPSG::4283`/`EPSG:4283`/`GDA94` (4283),
`EPSG::7844`/`EPSG:7844`/`GDA2020` (7844), and (3) the default 4326; in
particular a FeatureCollection lacking a `crs` tag yields 4326, and names
of the shape `EPSG:<n>`, `EPSG::<n>` and `epsg:<n>` yield the captured
number. -/
theorem C4_guess_epsg_order :
    (guess_epsg_from_geojson none = 4326) ∧
    (∀ (name : List Char) (n : Nat), epsgSearch (pyUpper name) = some n →
      guess_epsg_from_geojson (some name) = n) ∧
    (∀ (d : Char) (rest : List Char), (∀ c ∈ d :: rest, c.isDigit = true) →
      guess_epsg_from_geojson (some (strL "EPSG:" ++ (d :: rest))) = digitsToNat (d :: rest) ∧
      guess_epsg_from_geojson (some (strL "EPSG::" ++ (d :: rest))) = digitsToNat (d :: rest) ∧
      guess_epsg_from_geojson (some (strL "epsg:" ++ (d :: rest))) = digitsToNat (d :: rest)) ∧
    (∀ name : List Char, epsgSearch (pyUpper name) = none →
      (listContains (pyUpper name) (strL "CRS84") = true →
        guess_epsg_from_geojson (some name) = 4326) ∧
      (listContains (pyUpper name) (strL "CRS84") = false →
       (listContains (pyUpper name) (strL "EPSG::4283") = true ∨
        listContains (pyUpper name) (strL "EPSG:4283") = true ∨
        listContains (pyUpper name) (strL "GDA94") = true) →
        guess_epsg_from_geojson (some name) = 4283) ∧
      (listContains (pyUpper name) (strL "CRS84") = false →
       listContains (pyUpper name) (strL "EPSG::4283") = false →
       listContains (pyUpper name) (strL "EPSG:4283") = false →
       listContains (pyUpper name) (strL "GDA94") = false →
       (listContains (pyUpper name) (strL "EPSG::7844") = true ∨
        listContains (pyUpper name) (strL "EPSG:7844") = true ∨
        listContains (pyUpper name) (strL "GDA2020") = true) →
        guess_epsg_from_geojson (some name) = 7844) ∧
      (listContains (pyUpper name) (strL "CRS84") = false →
       listContains (pyUpper name) (strL "EPSG::4283") = false →
       listContains (pyUpper name) (strL "EPSG:4283") = false →
       listContains (pyUpper name) (strL "GDA94") = false →
       listContains (pyUpper name) (strL "EPSG::7844") = false →
       listContains (pyUpper name) (strL "EPSG:7844") = false →
       listContains (pyUpper name) (strL "GDA2020") = false →
        guess_epsg_from_geojson (some name) = 4326)) := by
  refine ⟨rfl, guess_epsg_eq_of_search, ?_, ?_⟩
  · intro d rest hdig
    have hds : pyUpper (d :: rest) = d :: rest := pyUpper_digits _ hdig
    have hfd : firstDigitRun (d :: rest) = some (d :: rest) :=
      firstDigitRun_all_digits d rest hdig
    refine ⟨?_, ?_, ?_⟩
    · apply guess_epsg_eq_of_search
      have hup : pyUpper (strL "EPSG:" ++ (d :: rest))
          = 'E' :: 'P' :: 'S' :: 'G' :: ':' :: (d :: rest) := by
        simp only [pyUpper, List.map_append] at *
        rw [hds]
        rfl
      rw [hup]
      exact epsgSearch_head_digits _ _ hfd
    · apply guess_epsg_eq_of_search
      have hup : pyUpper (strL "EPSG::" ++ (d :: rest))
          = 'E' :: 'P' :: 'S' :: 'G' :: ':' :: (':' :: (d :: rest)) := by
        simp only [pyUpper, List.map_append] at *
        rw [hds]
        rfl
      rw [hup]
      apply epsgSearch_head_digits
      rw [firstDigitRun]
      rw [show (':'.isDigit) = false from rfl]
      simp [hfd]
    · apply guess_epsg_eq_of_search
      have hup : pyUpper (strL "epsg:" ++ (d :: rest))
          = 'E' :: 'P' :: 'S' :: 'G' :: ':' :: (d :: rest) := by
        simp only [pyUpper, List.map_append] at *
        rw [hds]
        rfl
      rw [hup]
      exact epsgSearch_head_digits _ _ hfd
  · intro name hsearch
    refine ⟨?_, ?_, ?_, ?_⟩
    · intro hcrs
      simp only [guess_epsg_from_geojson, Option.getD_some]
      rw [hsearch]
      simp [hcrs]
    · intro hcrs h4283
      simp only [guess_epsg_from_geojson, Option.getD_some]
      rw [hsearch]
      rcases h4283 with h | h | h <;> simp [hcrs, h]
    · intro hcrs h1 h2 h3 h7844
      simp only [guess_epsg_from_geojson, Option.getD_some]
      rw [hsearch]
      rcases h7844 with h | h | h <;> simp [hcrs, h1, h2, h3, h]
    · intro hcrs h1 h2 h3 h4 h5 h6
      simp only [guess_epsg_from_geojson, Option.getD_some]
      rw [hsearch]
      simp [hcrs, h1, h2, h3, h4, h5, h6]

/-- Witness for C4 at concrete names: an undocumented numeric code via the
regex branch, the alias branches, and the default. -/
theorem C4_guess_epsg_order_witness :
    guess_epsg_from_geojson none = 4326 ∧
    guess_epsg_from_geojson (some (strL "EPSG:7855")) = 7855 ∧
    guess_epsg_from_geojson (some (strL "EPSG::4283")) = 4283 ∧
    guess_epsg_from_geojson (some (strL "epsg:4283")) = 4283 ∧
    guess_epsg_from_geojson (some (strL "urn:ogc:def:crs:OGC:1.3:CRS84")) = 4326 ∧
    guess_epsg_from_geojson (some (strL "GDA94")) = 4283 ∧
    guess_epsg_from_geojson (some (strL "GDA2020")) = 7844 ∧
    guess_epsg_from_geojson (some (strL "WGS 84")) = 4326 := by
  refine ⟨C4_guess_epsg_order.1, ?_, ?_, ?_, ?_, ?_, ?_, ?_⟩
  · exact (C4_guess_epsg_order.2.2.1 '7' (strL "855") (by decide)).1
  · exact (C4_guess_epsg_order.2.2.1 '4' (strL "283") (by decide)).2.1
  · exact (C4_guess_epsg_order.2.2.1 '4' (strL "283") (by decide)).2.2
  · exact (C4_guess_epsg_order.2.2.2 (strL "urn:ogc:def:crs:OGC:1.3:CRS84")
      (by decide)).1 (by decide)
  · exact (C4_guess_epsg_order.2.2.2 (strL "GDA94") (by decide)).2.1 (by decide)
      (Or.inr (Or.inr (by decide)))
  · exact (C4_guess_epsg_order.2.2.2 (strL "GDA2020") (by decide)).2.2.1 (by decide)
      (by decide) (by decide) (by decide) (Or.inr (Or.inr (by decide)))
  · exact (C4_guess_epsg_order.2.2.2 (strL "WGS 84") (by decide)).2.2.2 (by decide)
      (by decide) (by decide) (by decide) (by decide) (by decide) (by decide)

/-- Counterexample to claim C10: a crs name can contain `EPSG:` followed
directly by the digit sequence `4283` and still not return that sequence,
because the regex search stops at the LEFTMOST occurrence of `EPSG:`
followed (possibly after non-digits) by any digit: on
`EPSG:a1EPSG:4283` the captured number is 1, not 4283. -/
theorem C10_counterexample :
    guess_epsg_from_geojson (some (strL "EPSG:a1EPSG:4283")) = 1 ∧
    (∃ pre post : List Char,
      strL "EPSG:a1EPSG:4283" = pre ++ strL "EPSG:4283" ++ post ∧
      (∀ c ∈ strL "4283", c.isDigit = true)) ∧
    (1 : Nat) ≠ 4283 :=
  ⟨rfl, ⟨strL "EPSG:a1", [], by decide, by decide⟩, by decide⟩

/-- Claim C10 (amended): whenever the (case-insensitive) regex
`EPSG(?:::|:)[^0-9]*(\d+)` matches the crs name, `guessEpsg` returns the
number captured at the leftmost match, regardless of whether it is a
documented code (e.g. a name whose only EPSG occurrence is `EPSG::9999`
yields 9999); and whenever any of `EPSG::4283`, `EPSG:4283`, `EPSG::7844`
or `EPSG:7844` occurs in the uppercased name the regex does match, so
those four alias disjuncts can never be the deciding branch. -/
theorem C10_regex_always_decides :
    (∀ (name : List Char) (n : Nat), epsgSearch (pyUpper name) = some n →
      guess_epsg_from_geojson (some name) = n) ∧
    (guess_epsg_from_geojson (some (strL "urn:ogc:def:crs:EPSG::9999")) = 9999) ∧
    (∀ name : List Char,
      (listContains (pyUpper name) (strL "EPSG::4283") = true ∨
       listContains (pyUpper name) (strL "EPSG:4283") = true ∨
       listContains (pyUpper name) (strL "EPSG::7844") = true ∨
       listContains (pyUpper name) (strL "EPSG:7844") = true) →
      (epsgSearch (pyUpper name)).isSome = true) := by
  refine ⟨guess_epsg_eq_of_search, rfl, ?_⟩
  intro name h
  rcases h with h | h | h | h
  · exact epsgSearch_isSome_of_contains (strL ":4283") ⟨'4', by decide, by decide⟩
      (pyUpper name) h
  · exact epsgSearch_isSome_of_contains (strL "4283") ⟨'4', by decide, by decide⟩
      (pyUpper name) h
  · exact epsgSearch_isSome_of_contains (strL ":7844") ⟨'7', by decide, by decide⟩
      (pyUpper name) h
  · exact epsgSearch_isSome_of_contains (strL "7844") ⟨'7', by decide, by decide⟩
      (pyUpper name) h

/-- Witness for the amended C10 at concrete names. -/
theorem C10_regex_always_decides_witness :
    guess_epsg_from_geojson (some (strL "xEPSG:9999y")) = 9999 ∧
    (epsgSearch (pyUpper (strL "foo EPSG:4283"))).isSome = true := by
  constructor
  · exact C10_regex_always_decides.1 (strL "xEPSG:9999y") 9999 (by decide)
  · exact C10_regex_always_decides.2.2 (strL "foo EPSG:4283") (Or.inr (Or.inl (by decide)))

/-! ## Reprojector: `transform_coords` and `reproject_feature_geometry` -/

/-!
A dynamic JSON value as walked by `transform_coords`: a number, a
(nested) list, or any other value (string, null, dict, ...).
-/

mutual
/-- A dynamic JSON value: number, other scalar, or nested list. -/
inductive PyVal where
  | num (q : ℚ)
  | other
  | list (l : PyList)
inductive PyList where
  | nil
  | cons (hd : PyVal) (tl : PyList)
end

/-- `len` of a model JSON list. -/
def PyList.length : PyList → Nat
  | .nil => 0
  | .cons _ tl => tl.length + 1

/-- `isinstance(x, (int, float))`. -/
def PyVal.isNum : PyVal → Bool
  | .num _ => true
  | _ => false

/-!
`transform_coords(coords, transformer)`: non-lists pass through, the
empty list passes through, a two-element list whose head is a number is
treated as an `[x, y]` pair and transformed (the transformer raises -
`none` - when the second element is not a number), and any other list is
transformed element-wise.  The transformer `T` models
`transformer.transform(x, y)` with `always_xy=True`.
-/

mutual
/-- Recursive coordinate walk of `transform_coords`. -/
def transform_coords (T : ℚ → ℚ → ℚ × ℚ) : PyVal → Option PyVal
  | .num q => some (.num q)
  | .other => some .other
  | .list .nil => some (.list .nil)
  | .list (.cons c rest) =>
    if c.isNum && (PyList.cons c rest).length == 2 then
      match c, rest with
      | .num x, .cons (.num y) .nil =>
        some (.list (.cons (.num (T x y).1) (.cons (.num (T x y).2) .nil)))
      | _, _ => none
    else
      (transform_list T (.cons c rest)).map .list
def transform_list (T : ℚ → ℚ → ℚ × ℚ) : PyList → Option PyList
  | .nil => some .nil
  | .cons c cs =>
    match transform_coords T c, transform_list T cs with
    | some c2, some cs2 => some (.cons c2 cs2)
    | _, _ => none
end

/-- A GeoJSON geometry object as used by `reproject_feature_geometry`:
the optional `type` tag and the optional `coordinates` member (`none`
models a missing key, whose access raises `KeyError`). -/
structure PyGeom where
  gtype : Option String
  coords : Option PyVal

/-- `reproject_feature_geometry(feat_geom, src_epsg, dst_epsg)`: only
`Polygon` and `MultiPolygon` geometries are rebuilt from transformed
coordinates; any other geometry object is returned unchanged.  `none`
models an exception escaping (missing `coordinates` key, or a transformer
error). -/
def reproject_feature_geometry (T : ℚ → ℚ → ℚ × ℚ) (g : PyGeom) : Option PyGeom :=
  if g.gtype = some "Polygon" then
    match g.coords with
    | none => none
    | some c => (transform_coords T c).map fun nc => ⟨some "Polygon", some nc⟩
  else if g.gtype = some "MultiPolygon" then
    match g.coords with
    | none => none
    | some c => (transform_coords T c).map fun nc => ⟨some "MultiPolygon", some nc⟩
  else some g

/-- A linear ring: a list of coordinate pairs. -/
def PyRing : Type := List (ℚ × ℚ)

/-- Embed a coordinate pair as the JSON value `[x, y]`. -/
def pairPy (p : ℚ × ℚ) : PyVal :=
  .list (.cons (.num p.1) (.cons (.num p.2) .nil))

/-- Embed a Lean list of JSON values as a JSON list. -/
def pyListOf : List PyVal → PyList
  | [] => .nil
  | v :: vs => .cons v (pyListOf vs)

/-- Embed a ring as a JSON list of pairs. -/
def ringPy (r : PyRing) : PyVal := .list (pyListOf (r.map pairPy))

/-- Embed Polygon coordinates (a list of rings) as a JSON value. -/
def polyPy (pc : List PyRing) : PyVal := .list (pyListOf (pc.map ringPy))

/-- Apply the coordinate transformer to one pair. -/
def applyT (T : ℚ → ℚ → ℚ × ℚ) (p : ℚ × ℚ) : ℚ × ℚ := T p.1 p.2

theorem transform_coords_pair (T : ℚ → ℚ → ℚ × ℚ) (p : ℚ × ℚ) :
    transform_coords T (pairPy p) = some (pairPy (applyT T p)) := rfl

theorem transform_list_pairs (T : ℚ → ℚ → ℚ × ℚ) (r : PyRing) :
    transform_list T (pyListOf (r.map pairPy)) =
      some (pyListOf ((r.map (applyT T)).map pairPy)) := by
  induction r with
  | nil => rfl
  | cons p r ih =>
    simp only [List.map_cons, pyListOf, transform_list, transform_coords_pair, ih]

theorem transform_coords_ring (T : ℚ → ℚ → ℚ × ℚ) (r : PyRing) :
    transform_coords T (ringPy r) = some (ringPy (r.map (applyT T))) := by
  cases r with
  | nil => rfl
  | cons p r =>
    have h : transform_coords T (ringPy (p :: r)) =
        (transform_list T (pyListOf ((p :: r).map pairPy))).map .list := rfl
    rw [h, transform_list_pairs]
    rfl

theorem transform_list_rings (T : ℚ → ℚ → ℚ × ℚ) (pc : List PyRing) :
    transform_list T (pyListOf (pc.map ringPy)) =
      some (pyListOf ((pc.map (fun r => r.map (applyT T))).map ringPy)) := by
  induction pc with
  | nil => rfl
  | cons r pc ih =>
    simp only [List.map_cons, pyListOf, transform_list, transform_coords_ring, ih]

theorem transform_coords_poly (T : ℚ → ℚ → ℚ × ℚ) (pc : List PyRing) :
    transform_coords T (polyPy pc) =
      some (polyPy (pc.map (fun r => r.map (applyT T)))) := by
  cases pc with
  | nil => rfl
  | cons r pc =>
    have h : transform_coords T (polyPy (r :: pc)) =
        (transform_list T (pyListOf ((r :: pc).map ringPy))).map .list := rfl
    rw [h, transform_list_rings]
    rfl

/-- Claim C5: reprojection is a structural homomorphism: reprojecting a
Polygon geometry equals reprojecting each of its coordinate pairs
individually (`applyT T`) and reassembling the same nested structure -
ring count and every ring length are preserved - and any geometry whose
type is neither Polygon nor MultiPolygon is returned unchanged rather
than raising an error. -/
theorem C5_reproject_structural :
    (∀ (T : ℚ → ℚ → ℚ × ℚ) (pc : List PyRing),
      reproject_feature_geometry T ⟨some "Polygon", some (polyPy pc)⟩ =
        some ⟨some "Polygon", some (polyPy (pc.map (fun r => r.map (applyT T))))⟩ ∧
      (pc.map (fun (r : PyRing) => r.map (applyT T))).length = pc.length ∧
      (∀ (i : Nat) (h1 : i < (pc.map (fun (r : PyRing) => r.map (applyT T))).length)
          (h2 : i < pc.length),
        List.length ((pc.map (fun (r : PyRing) => r.map (applyT T))).get ⟨i, h1⟩)
          = List.length (pc.get ⟨i, h2⟩))) ∧
    (∀ (T : ℚ → ℚ → ℚ × ℚ) (g : PyGeom),
      g.gtype ≠ some "Polygon" → g.gtype ≠ some "MultiPolygon" →
      reproject_feature_geometry T g = some g) := by
  constructor
  · intro T pc
    refine ⟨?_, by simp, ?_⟩
    · simp only [reproject_feature_geometry, if_pos rfl]
      rw [transform_coords_poly]
      rfl
    · intro i h1 h2
      simp
  · intro T g h1 h2
    simp only [reproject_feature_geometry, if_neg h1, if_neg h2]

/-- Witness for C5 at a concrete non-polygonal geometry: a `Point` passes
through unchanged. -/
theorem C5_reproject_structural_witness :
    reproject_feature_geometry (fun x y => (y, x)) ⟨some "Point", some .other⟩ =
      some ⟨some "Point", some .other⟩ :=
  C5_reproject_structural.2 (fun x y => (y, x)) ⟨some "Point", some .other⟩
    (by simp) (by simp)

/-! ## Indicator resolver and dataset catalog of `precinct_overlay` -/

/-- Python lowercase of a char list (basic-latin model). -/
def pyLower (l : List Char) : List Char := l.map Char.toLower

/-- Python `str.strip()`: drop leading and trailing whitespace. -/
def pyStrip (l : List Char) : List Char :=
  ((l.dropWhile Char.isWhitespace).reverse.dropWhile Char.isWhitespace).reverse

/-- The indicator normalisation of `precinct_overlay`:
`indicator = (data.get('indicator') or '').strip()`, then ordered
case-insensitive substring checks, defaulting to `jobs`. -/
def resolve_ind_key (indicator : Option String) : String :=
  let ind := pyStrip (indicator.getD "").data
  if ind = [] then "jobs"
  else
    let low := pyLower ind
    let has : String → Bool := fun pat => listContains low pat.data
    if has "spec" || has "industry" then "spec"
    else if (has "social" && has "infra") || (has "accessibility" && has "social") then
      "socinfra"
    else if (has "housing" && has "stress") || (has "housing" && has "percent") then
      "housing_stress"
    else if (has "land" && has "mix") || has "lum" then "lum"
    else if has "age" && (has "diversity" || has "resident") then "age_mix"
    else if has "income" && (has "diversity" || has "resident") then "income_mix"
    else if has "walk" then "walkability"
    else if has "resident" && has "sa1" then "residents_sa1"
    else if has "dwell" then "dwellings"
    else if has "resident" || has "mesh" || has "resdwel" then "residents"
    else "jobs"

/-- Result of the dataset/property selection of `precinct_overlay`:
`data_file` (`none` models a falsy `data_file`, i.e. an unsupported year),
`val_prop` (`none` models `None`, whose property lookup later yields the
default 0), and the - possibly coerced - `year` variable. -/
structure DataSel where
  data_file : Option String
  val_prop : Option String
  year : Int
deriving DecidableEq

/-- `{...}.get(year)` on a year-keyed literal dict. -/
def yearLookup (year : Int) (table : List (Int × String)) : Option String :=
  List.lookup year table

/-- The `# Select dataset and properties based on indicator` block of
`precinct_overlay`, transcribed branch by branch; for `socinfra`,
`housing_stress` and `walkability` an unsupported year is coerced to the
default 2018 before the property lookup. -/
def select_dataset (ind_key : String) (year : Int) : DataSel :=
  if ind_key = "spec" then
    ⟨yearLookup year [(2011, "Inudstry_Specialisation_DZN_11.geojson"),
        (2016, "Inudstry_Specialisation_DZN_16.geojson"),
        (2021, "Inudstry_Specialisation_DZN_21.geojson")],
      yearLookup year [(2011, "Special_11"), (2016, "Special_16"), (2021, "Special_21")],
      year⟩
  else if ind_key = "socinfra" then
    let year := if year = 2018 ∨ year = 2021 then year else 2018
    ⟨some "Social_Infrastructure_Index_SA1_18_21.geojson",
      yearLookup year [(2018, "SoInfra_18"), (2021, "SoInfra_21")], year⟩
  else if ind_key = "housing_stress" then
    let year := if year = 2018 ∨ year = 2021 then year else 2018
    ⟨some "Housing_Stress_SA1_18_21.geojson",
      yearLookup year [(2018, "HouStre_18"), (2021, "HouStre_21")], year⟩
  else if ind_key = "lum" then
    ⟨some "Land_Use_Mix__SA1_11_16_21.geojson",
      yearLookup year [(2011, "LUM_11"), (2016, "LUM_16"), (2021, "LUM_21")], year⟩
  else if ind_key = "residents" ∨ ind_key = "dwellings" ∨ ind_key = "resdwel"
      ∨ ind_key = "residents_sa1" then
    if ind_key = "residents_sa1" then
      ⟨some "Number_of_Residents_and_Dwellings_SA1_11_16_21.geojson",
        yearLookup year [(2011, "Person_11"), (2016, "Person_16"), (2021, "Person_21")],
        year⟩
    else
      ⟨yearLookup year [(2011, "Number_of_Residents_and_Dwellings_MB_11.geojson"),
          (2016, "Number_of_Residents_and_Dwellings_MB_16.geojson"),
          (2021, "Number_of_Residents_and_Dwellings_MB_21.geojson")],
        if ind_key = "dwellings" then
          yearLookup year [(2011, "Dwell_11"), (2016, "Dwell_16"), (2021, "Dwell_21")]
        else
          yearLookup year [(2011, "Person_11"), (2016, "Person_16"), (2021, "Person_21")],
        year⟩
  else if ind_key = "age_mix" then
    ⟨some "Age_Mix__SA1_16_21.geojson",
      yearLookup year [(2016, "Age_Mix_16"), (2021, "Age_Mix_21")], year⟩
  else if ind_key = "income_mix" then
    ⟨some "Income_Mix_SA1_16_21.geojson",
      yearLookup year [(2016, "Inc_Mix_16"), (2021, "Inc_Mix_21")], year⟩
  else if ind_key = "walkability" then
    let year := if year = 2018 ∨ year = 2021 then year else 2018
    ⟨some "Walkability_SA1_16_21.geojson",
      yearLookup year [(2018, "Walkabi_18"), (2021, "Walkabi_21")], year⟩
  else
    ⟨yearLookup year [(2011, "Number_of_Jobs_DZN_11.geojson"),
        (2016, "Number_of_Jobs_DZN_16.geojson"), (2021, "Number_of_Jobs_DZN_21.geojson")],
      yearLookup year [(2011, "TotJob_11"), (2016, "TotJob_16"), (2021, "TotJob_21")],
      year⟩

/-- The `# Prepare outputs and spatial unit` block of `precinct_overlay`:
the code property (a `none` models a `KeyError` on the year-keyed dict
access `{...}[year]`) and the spatial-unit label. -/
def select_code_unit (ind_key : String) (year : Int) : Option String × String :=
  if ind_key = "lum" then (some "SA1_CODE_2", "SA1")
  else if ind_key = "socinfra" then (some "SA1_CODE_2", "SA1")
  else if ind_key = "housing_stress" then (some "SA1_CODE_2", "SA1")
  else if ind_key = "residents" ∨ ind_key = "dwellings" ∨ ind_key = "resdwel" then
    (yearLookup year [(2011, "MB_CODE11"), (2016, "MB_CODE16"), (2021, "MB_CODE21")], "MB")
  else if ind_key = "age_mix" then (some "SA1_CODE_2", "SA1")
  else if ind_key = "income_mix" then (some "SA1_CODE_2", "SA1")
  else if ind_key = "walkability" then (some "SA1_CODE_2", "SA1")
  else if ind_key = "residents_sa1" then (some "SA1_CODE_2", "SA1")
  else
    (yearLookup year [(2011, "DZN_CODE11"), (2016, "DZN_CODE16"), (2021, "DZN_CODE21")],
      "DZN")

/-! ## Overlay engine

The geometric substrate (shapely) is modelled discretely: a planar
geometry is a finite set of unit grid cells, its area the cell count,
`unary_union` is set union, `intersection` is set intersection and
`intersects` is nonempty intersection.  The facts the overlay loop relies
on - the intersection is contained in both operands, so its area is at
most either area - hold exactly in this model.  Reprojection of an
already-parsed geometry composed with `shape(...)` is modelled as the
image of the cell set under a transform on cells. -/

/-- A planar geometry: a finite set of unit cells. -/
abbrev Geom : Type := Finset (ℤ × ℤ)

/-- A JSON property value: a number, a string, a numeric string (which
`float(...)` parses), or anything else `float(...)` raises on. -/
inductive PropVal where
  | num (q : ℚ)
  | str (s : String)
  | numStr (q : ℚ)
  | other
deriving DecidableEq

/-- `try: val = float(val); except Exception: val = 0.0`. -/
def pyFloat : PropVal → ℚ
  | .num q => q
  | .numStr q => q
  | _ => 0

/-- `f.get('properties', {}).get(key, default)`. -/
def propGet (props : List (String × PropVal)) (key : String) (dflt : PropVal) : PropVal :=
  (List.lookup key props).getD dflt

/-- `properties.get(val_prop, 0)` where `val_prop` may be `None` (then the
default is returned, since `None` is never a key). -/
def propGetOpt (props : List (String × PropVal)) (key : Option String)
    (dflt : PropVal) : PropVal :=
  match key with
  | none => dflt
  | some k => propGet props k dflt

/-- A dataset feature as consumed by the overlay loop: its geometry
(`none` models a missing/falsy `geometry`) and its properties. -/
structure DataFeature where
  geometry : Option Geom
  props : List (String × PropVal)

/-- A precinct feature: its `name` property and its geometry (`none`
models a missing `geometry` key, whose access raises). -/
structure PrecFeature where
  name : Option String
  geometry : Option Geom

/-- One intersection record as appended by the overlay loop. -/
structure IRecord where
  code : PropVal
  value : ℚ
  area : ℚ
  areaPct : ℚ
  featureArea : ℚ
  areaPctPrecinct : ℚ
  areaPctFeature : ℚ
deriving DecidableEq

/-- The body of the `for f in feats` overlay loop for one dataset
feature: `none` models `continue` (missing geometry, empty/zero-area
geometry, no intersection, empty/zero-area intersection).  In this
discrete model the per-feature `try`/`except` can only exit through the
explicit skips. -/
def processFeature (T : ℤ × ℤ → ℤ × ℤ) (p_union : Geom) (p_area : ℚ)
    (code_prop : String) (val_prop : Option String) (f : DataFeature) : Option IRecord :=
  match f.geometry with
  | none => none
  | some g =>
    let shp : Finset (ℤ × ℤ) := g.image T
    if (shp.card : ℚ) ≤ 0 then none
    else if ¬ (p_union ∩ shp).Nonempty then none
    else
      let inter := p_union ∩ shp
      if inter = ∅ then none
      else
        let a : ℚ := inter.card
        if a ≤ 0 then none
        else
          let code := propGet f.props code_prop (.str "")
          let val := pyFloat (propGetOpt f.props val_prop (.num 0))
          let feat_area : ℚ := shp.card
          let area_pct_precinct : ℚ := if 0 < p_area then a / p_area else 0
          let area_pct_feature : ℚ := if 0 < feat_area then a / feat_area else 0
          some ⟨code, val, a, area_pct_precinct, feat_area,
            area_pct_precinct, area_pct_feature⟩

/-- The full overlay loop: the records collected over the dataset
features, in dataset order, with `p_area` the area of the precinct
union. -/
def overlayRecords (T : ℤ × ℤ → ℤ × ℤ) (p_union : Geom) (code_prop : String)
    (val_prop : Option String) (feats : List DataFeature) : List IRecord :=
  let p_area : ℚ := (Finset.card p_union : ℚ)
  feats.filterMap (processFeature T p_union p_area code_prop val_prop)

/-- Stable descending insertion for the model of
`intersections.sort(key=lambda i: i['areaPct'], reverse=True)`: a record
is placed before the first element whose key is not larger, so equal keys
keep their original relative order. -/
def insertDesc (r : IRecord) : List IRecord → List IRecord
  | [] => [r]
  | x :: xs => if x.areaPct ≤ r.areaPct then r :: x :: xs else x :: insertDesc r xs

/-- Pythons `list.sort(key=..., reverse=True)` is a stable sort by key,
descending; any stable sort by key computes the same list, so it is
modelled by stable insertion sort. -/
def pySortByAreaPctDesc : List IRecord → List IRecord
  | [] => []
  | r :: rs => insertDesc r (pySortByAreaPctDesc rs)

/-- The response object of a successful overlay. -/
structure OverlayResult where
  precinct : String
  year : Int
  precinctArea : ℚ
  spatialUnit : String
  intersectCount : Nat
  dznIntersectCount : Nat
  intersections : List IRecord
deriving DecidableEq

/-- The precinct reprojection loop: `f['geometry']` raising on a missing
key aborts the request (`none`); otherwise each reprojected geometry is
kept when it is non-empty with positive area. -/
def precinctGeoms (T : ℤ × ℤ → ℤ × ℤ) : List PrecFeature → Option (List Geom)
  | [] => some []
  | f :: rest =>
    match f.geometry with
    | none => none
    | some g =>
      let shp : Finset (ℤ × ℤ) := g.image T
      match precinctGeoms T rest with
      | none => none
      | some gs => some (if 0 < shp.card then shp :: gs else gs)

/-- The final `result = {...}` dictionary of `precinct_overlay`. -/
def assembleResult (pname : String) (year : Int) (spatial_unit : String)
    (T : ℤ × ℤ → ℤ × ℤ) (p_union : Geom) (code_prop : String)
    (val_prop : Option String) (dataFeats : List DataFeature) : OverlayResult :=
  let p_area : ℚ := (Finset.card p_union : ℚ)
  let sorted := pySortByAreaPctDesc (overlayRecords T p_union code_prop val_prop dataFeats)
  ⟨pname, year, p_area, spatial_unit, sorted.length, sorted.length, sorted⟩

/-- The request handler `precinct_overlay`, modelled after JSON parsing:
`precinctName`, `year` (already coerced to int; default 2011 is applied
by the caller of this model) and the free-text indicator, against the
already-loaded precinct and dataset feature collections, with `T` the
EPSG reprojection on cells.  Errors carry the HTTP status and message. -/
def precinct_overlay (T : ℤ × ℤ → ℤ × ℤ) (precinctName : Option String) (year : Int)
    (indicator : Option String) (precincts : List PrecFeature)
    (dataFeats : List DataFeature) : Except (Nat × String) OverlayResult :=
  let precinct_name := precinctName.getD ""
  if precinct_name = "" then .error (400, "Missing precinctName")
  else
    let ind_key := resolve_ind_key indicator
    let sel := select_dataset ind_key year
    match sel.data_file with
    | none => .error (400, "Unsupported year " ++ toString sel.year)
    | some _ =>
      let p_feats := precincts.filter (fun f => f.name = some precinct_name)
      if p_feats.isEmpty then
        .error (404, "Precinct " ++ precinct_name ++ " not found")
      else
        match precinctGeoms T p_feats with
        | none => .error (500, "KeyError: geometry")
        | some p_geoms =>
          if p_geoms.isEmpty then
            .error (500, "Precinct geometry invalid after reprojection")
          else
            let p_union : Geom := p_geoms.foldl (fun a b => a ∪ b) ∅
            match (select_code_unit ind_key sel.year).1 with
            | none => .error (500, "KeyError: year")
            | some code_prop =>
              .ok (assembleResult precinct_name sel.year
                (select_code_unit ind_key sel.year).2 T p_union code_prop
                sel.val_prop dataFeats)

/-! ## Sorting lemmas for the overlay records -/

theorem mem_insertDesc (r y : IRecord) (l : List IRecord) :
    y ∈ insertDesc r l ↔ y = r ∨ y ∈ l := by
  induction l with
  | nil => simp [insertDesc]
  | cons x xs ih =>
    rw [insertDesc]
    by_cases h : x.areaPct ≤ r.areaPct
    · simp [h]
    · simp [h, ih]
      tauto

theorem mem_pySort (y : IRecord) (l : List IRecord) :
    y ∈ pySortByAreaPctDesc l ↔ y ∈ l := by
  induction l with
  | nil => simp [pySortByAreaPctDesc]
  | cons r rs ih =>
    rw [pySortByAreaPctDesc, mem_insertDesc]
    simp [ih]

theorem pairwise_insertDesc (r : IRecord) (l : List IRecord)
    (h : l.Pairwise (fun a b => b.areaPct ≤ a.areaPct)) :
    (insertDesc r l).Pairwise (fun a b => b.areaPct ≤ a.areaPct) := by
  induction l with
  | nil => simp [insertDesc]
  | cons x xs ih =>
    rw [insertDesc]
    rcases List.pairwise_cons.mp h with ⟨hx, hxs⟩
    by_cases hcmp : x.areaPct ≤ r.areaPct
    · rw [if_pos hcmp]
      refine List.pairwise_cons.mpr ⟨?_, h⟩
      intro z hz
      rcases List.mem_cons.mp hz with rfl | hz2
      · exact hcmp
      · exact le_trans (hx z hz2) hcmp
    · rw [if_neg hcmp]
      refine List.pairwise_cons.mpr ⟨?_, ih hxs⟩
      intro z hz
      rcases (mem_insertDesc r z xs).mp hz with rfl | hz2
      · exact le_of_lt (lt_of_not_le hcmp)
      · exact hx z hz2

theorem pairwise_pySort (l : List IRecord) :
    (pySortByAreaPctDesc l).Pairwise (fun a b => b.areaPct ≤ a.areaPct) := by
  induction l with
  | nil => simp [pySortByAreaPctDesc]
  | cons r rs ih => exact pairwise_insertDesc r _ ih

theorem insertDesc_split (r : IRecord) (l : List IRecord) :
    ∃ l₁ l₂, l = l₁ ++ l₂ ∧ insertDesc r l = l₁ ++ r :: l₂ ∧
      ∀ z ∈ l₁, r.areaPct < z.areaPct := by
  induction l with
  | nil => exact ⟨[], [], rfl, rfl, by simp⟩
  | cons x xs ih =>
    by_cases hcmp : x.areaPct ≤ r.areaPct
    · exact ⟨[], x :: xs, rfl, by rw [insertDesc, if_pos hcmp]; rfl, by simp⟩
    · obtain ⟨l₁, l₂, hl, hins, hgt⟩ := ih
      refine ⟨x :: l₁, l₂, by rw [List.cons_append, ← hl], ?_, ?_⟩
      · rw [insertDesc, if_neg hcmp, hins]
        rfl
      · intro z hz
        rcases List.mem_cons.mp hz with rfl | hz2
        · exact lt_of_not_le hcmp
        · exact hgt z hz2

theorem sublist_insert_middle (s A B : List IRecord) (c : IRecord)
    (h : s.Sublist (A ++ B)) : s.Sublist (A ++ c :: B) :=
  h.trans ((List.sublist_cons_self c B).append_left A)

theorem pySort_stable (x y : IRecord) (hkey : y.areaPct ≤ x.areaPct) :
    ∀ l : List IRecord, [x, y].Sublist l → [x, y].Sublist (pySortByAreaPctDesc l) := by
  intro l
  induction l with
  | nil => intro h; cases h
  | cons a l ih =>
    intro h
    rw [pySortByAreaPctDesc]
    obtain ⟨l₁, l₂, hsplit, hins, hgt⟩ := insertDesc_split a (pySortByAreaPctDesc l)
    cases h with
    | cons _ htail =>
      rw [hins]
      exact sublist_insert_middle _ _ _ _ (by rw [← hsplit]; exact ih htail)
    | cons₂ _ htail =>
      have hy : y ∈ pySortByAreaPctDesc l :=
        (mem_pySort y l).mpr (List.singleton_sublist.mp htail)
      rw [hsplit] at hy
      have hy2 : y ∈ l₂ := by
        rcases List.mem_append.mp hy with h1 | h2
        · exact absurd hkey (not_le_of_lt (hgt y h1))
        · exact h2
      rw [hins]
      have : [x, y].Sublist (x :: l₂) :=
        (List.singleton_sublist.mpr hy2).cons₂ x
      exact this.trans (List.sublist_append_right l₁ (x :: l₂))

/-! ## Overlay invariants -/

theorem processFeature_some_bounds (T : ℤ × ℤ → ℤ × ℤ) (p_union : Geom)
    (code_prop : String) (val_prop : Option String) (f : DataFeature) (r : IRecord)
    (h : processFeature T p_union ((Finset.card p_union : ℚ)) code_prop val_prop f
        = some r) :
    0 ≤ r.areaPctPrecinct ∧ r.areaPctPrecinct ≤ 1 ∧
    0 ≤ r.areaPctFeature ∧ r.areaPctFeature ≤ 1 := by
  rcases hg : f.geometry with _ | g
  · simp [processFeature, hg] at h
  · simp only [processFeature, hg] at h
    by_cases h1 : ((g.image T).card : ℚ) ≤ 0
    · rw [if_pos h1] at h
      exact absurd h (by simp)
    rw [if_neg h1] at h
    by_cases h2 : ¬ (p_union ∩ g.image T).Nonempty
    · rw [if_pos h2] at h
      exact absurd h (by simp)
    rw [if_neg h2] at h
    by_cases h3 : (p_union ∩ g.image T) = ∅
    · rw [if_pos h3] at h
      exact absurd h (by simp)
    rw [if_neg h3] at h
    by_cases h4 : (((p_union ∩ g.image T).card : ℚ)) ≤ 0
    · rw [if_pos h4] at h
      exact absurd h (by simp)
    rw [if_neg h4] at h
    have hr := (Option.some.injEq _ _).mp h
    subst hr
    have ha : (0 : ℚ) ≤ ((p_union ∩ g.image T).card : ℚ) := Nat.cast_nonneg _
    have hap : ((p_union ∩ g.image T).card : ℚ) ≤ (Finset.card p_union : ℚ) := by
      exact_mod_cast Finset.card_le_card Finset.inter_subset_left
    have haf : ((p_union ∩ g.image T).card : ℚ) ≤ ((g.image T).card : ℚ) := by
      exact_mod_cast Finset.card_le_card Finset.inter_subset_right
    refine ⟨?_, ?_, ?_, ?_⟩
    · show (0 : ℚ) ≤ if 0 < (Finset.card p_union : ℚ) then _ / _ else 0
      split
      · exact div_nonneg ha (by linarith)
      · exact le_refl 0
    · show (if 0 < (Finset.card p_union : ℚ) then
          ((p_union ∩ g.image T).card : ℚ) / (Finset.card p_union : ℚ) else 0) ≤ 1
      split
      · exact (div_le_one (by assumption)).mpr hap
      · norm_num
    · show (0 : ℚ) ≤ if 0 < ((g.image T).card : ℚ) then _ / _ else 0
      split
      · exact div_nonneg ha (by linarith)
      · exact le_refl 0
    · show (if 0 < ((g.image T).card : ℚ) then
          ((p_union ∩ g.image T).card : ℚ) / ((g.image T).card : ℚ) else 0) ≤ 1
      split
      · exact (div_le_one (by assumption)).mpr haf
      · norm_num

theorem overlayRecords_bounds (T : ℤ × ℤ → ℤ × ℤ) (p_union : Geom)
    (code_prop : String) (val_prop : Option String) (feats : List DataFeature) :
    ∀ r ∈ overlayRecords T p_union code_prop val_prop feats,
      0 ≤ r.areaPctPrecinct ∧ r.areaPctPrecinct ≤ 1 ∧
      0 ≤ r.areaPctFeature ∧ r.areaPctFeature ≤ 1 := by
  intro r hr
  simp only [overlayRecords] at hr
  obtain ⟨f, _, hpf⟩ := List.mem_filterMap.mp hr
  exact processFeature_some_bounds T p_union code_prop val_prop f r hpf

theorem precinct_overlay_ok_shape (T : ℤ × ℤ → ℤ × ℤ) (pn : Option String) (y : Int)
    (ind : Option String) (precincts : List PrecFeature) (dataFeats : List DataFeature)
    (res : OverlayResult)
    (h : precinct_overlay T pn y ind precincts dataFeats = .ok res) :
    ∃ pname p_union code_prop,
      res = assembleResult pname (select_dataset (resolve_ind_key ind) y).year
        (select_code_unit (resolve_ind_key ind)
          (select_dataset (resolve_ind_key ind) y).year).2
        T p_union code_prop (select_dataset (resolve_ind_key ind) y).val_prop dataFeats := by
  simp only [precinct_overlay] at h
  split at h
  · exact absurd h (by simp)
  · split at h
    · exact absurd h (by simp)
    · split at h
      · exact absurd h (by simp)
      · split at h
        · exact absurd h (by simp)
        · split at h
          · exact absurd h (by simp)
          · split at h
            · exact absurd h (by simp)
            · exact ⟨_, _, _, ((Except.ok.injEq _ _).mp h).symm⟩

/-- Claim C1: for every successful overlay result, every intersection
record satisfies `0 ≤ areaPctPrecinct ≤ 1` and `0 ≤ areaPctFeature ≤ 1`,
and the records are sorted by `areaPct` (the precinct-relative fraction)
in descending order, ties keeping the original dataset feature order
(stable sort): the output is the stable descending sort of the loop
records, which are collected in dataset order. -/
theorem C1_overlay_invariants :
    ∀ (T : ℤ × ℤ → ℤ × ℤ) (pn : Option String) (y : Int) (ind : Option String)
      (precincts : List PrecFeature) (dataFeats : List DataFeature)
      (res : OverlayResult),
      precinct_overlay T pn y ind precincts dataFeats = .ok res →
      (∀ r ∈ res.intersections,
        0 ≤ r.areaPctPrecinct ∧ r.areaPctPrecinct ≤ 1 ∧
        0 ≤ r.areaPctFeature ∧ r.areaPctFeature ≤ 1) ∧
      res.intersections.Pairwise (fun a b => b.areaPct ≤ a.areaPct) ∧
      (∃ (p_union : Geom) (code_prop : String),
        res.intersections = pySortByAreaPctDesc (overlayRecords T p_union code_prop
          (select_dataset (resolve_ind_key ind) y).val_prop dataFeats) ∧
        ∀ x y2 : IRecord, x.areaPct = y2.areaPct →
          [x, y2].Sublist (overlayRecords T p_union code_prop
            (select_dataset (resolve_ind_key ind) y).val_prop dataFeats) →
          [x, y2].Sublist res.intersections) := by
  intro T pn y ind precincts dataFeats res h
  obtain ⟨pname, pu, cp, hres⟩ := precinct_overlay_ok_shape T pn y ind precincts dataFeats res h
  subst hres
  have hint : (assembleResult pname (select_dataset (resolve_ind_key ind) y).year
      (select_code_unit (resolve_ind_key ind)
        (select_dataset (resolve_ind_key ind) y).year).2
      T pu cp (select_dataset (resolve_ind_key ind) y).val_prop dataFeats).intersections
      = pySortByAreaPctDesc (overlayRecords T pu cp
        (select_dataset (resolve_ind_key ind) y).val_prop dataFeats) := rfl
  refine ⟨?_, ?_, pu, cp, hint, ?_⟩
  · intro r hr
    rw [hint] at hr
    exact overlayRecords_bounds T pu cp _ dataFeats r ((mem_pySort r _).mp hr)
  · rw [hint]
    exact pairwise_pySort _
  · intro x y2 hkey hsub
    rw [hint]
    exact pySort_stable x y2 (le_of_eq hkey.symm) _ hsub

/-- Concrete precinct layer for the C1 witness: one feature named "P"
covering two cells. -/
def precC1 : List PrecFeature := [⟨some "P", some {(0, 0), (1, 0)}⟩]

/-- Concrete jobs dataset for the C1 witness: two DZN features, one fully
inside the precinct and one half inside. -/
def featsC1 : List DataFeature :=
  [⟨some {(0, 0)}, [("DZN_CODE11", .str "A"), ("TotJob_11", .num 10)]⟩,
   ⟨some {(1, 0), (2, 0)}, [("DZN_CODE11", .str "B"), ("TotJob_11", .num 5)]⟩]

/-- The overlay result of the C1 witness run (the record fields evaluate
to code "A", value 10, areas 1 of 1 and areaPct 1/2, then code "B",
value 5, areas 1 of 2 and areaPct 1/2). -/
def resC1 : OverlayResult :=
  assembleResult "P" 2011 "DZN" id ({(0, 0), (1, 0)} : Geom) "DZN_CODE11"
    (some "TotJob_11") featsC1

/-- Witness for C1: a concrete successful overlay of two dataset features
against a two-cell precinct. -/
theorem C1_overlay_invariants_witness :
    (∀ r ∈ resC1.intersections,
      0 ≤ r.areaPctPrecinct ∧ r.areaPctPrecinct ≤ 1 ∧
      0 ≤ r.areaPctFeature ∧ r.areaPctFeature ≤ 1) ∧
    resC1.intersections.Pairwise (fun a b => b.areaPct ≤ a.areaPct) ∧
    (∃ (p_union : Geom) (code_prop : String),
      resC1.intersections = pySortByAreaPctDesc (overlayRecords id p_union code_prop
        (select_dataset (resolve_ind_key none) 2011).val_prop featsC1) ∧
      ∀ x y2 : IRecord, x.areaPct = y2.areaPct →
        [x, y2].Sublist (overlayRecords id p_union code_prop
          (select_dataset (resolve_ind_key none) 2011).val_prop featsC1) →
        [x, y2].Sublist resC1.intersections) :=
  C1_overlay_invariants id (some "P") 2011 none precC1 featsC1 resC1 (by rfl)

/-- Claim C6: indicator resolution is ordered, case-insensitive substring
matching with first match winning: "Housing Stress (%)" resolves to
`housing_stress`, "industry specialisation" resolves to `spec`, empty or
unrecognized text (no occurrence of any trigger keyword) resolves to
`jobs`, and a text matching both the `spec` rule and the later
housing-stress rule resolves to the earlier rule. -/
theorem C6_indicator_resolution :
    resolve_ind_key (some "Housing Stress (%)") = "housing_stress" ∧
    resolve_ind_key (some "industry specialisation") = "spec" ∧
    resolve_ind_key none = "jobs" ∧
    resolve_ind_key (some "") = "jobs" ∧
    resolve_ind_key (some "Housing Stress industry") = "spec" ∧
    (∀ s : String,
      (∀ pat ∈ (["spec", "industry", "social", "housing", "land", "lum", "age",
        "income", "walk", "resident", "mesh", "resdwel", "dwell"] : List String),
        listContains (pyLower (pyStrip s.data)) pat.data = false) →
      resolve_ind_key (some s) = "jobs") := by
  refine ⟨rfl, rfl, rfl, rfl, rfl, ?_⟩
  intro s hpat
  have h01 := hpat "spec" (by simp)
  have h02 := hpat "industry" (by simp)
  have h03 := hpat "social" (by simp)
  have h04 := hpat "housing" (by simp)
  have h05 := hpat "land" (by simp)
  have h06 := hpat "lum" (by simp)
  have h07 := hpat "age" (by simp)
  have h08 := hpat "income" (by simp)
  have h09 := hpat "walk" (by simp)
  have h10 := hpat "resident" (by simp)
  have h11 := hpat "mesh" (by simp)
  have h12 := hpat "resdwel" (by simp)
  have h13 := hpat "dwell" (by simp)
  delta resolve_ind_key
  simp only [Option.getD_some]
  by_cases hnil : pyStrip (String.data s) = []
  · simp only [if_pos hnil]
  · simp only [if_neg hnil]
    simp only [h01, h02, h03, h04, h05, h06, h07, h08, h09, h10, h11, h12, h13,
      Bool.or_false, Bool.false_or, Bool.and_false, Bool.false_and, Bool.or_self,
      Bool.and_self, Bool.false_eq_true, if_false]

/-- Witness for C6 at a concrete unrecognized indicator text. -/
theorem C6_indicator_resolution_witness :
    resolve_ind_key (some "greenery") = "jobs" :=
  C6_indicator_resolution.2.2.2.2.2 "greenery" (by decide)

theorem select_dataset_snaps (k : String)
    (hk : k = "socinfra" ∨ k = "housing_stress" ∨ k = "walkability")
    (y : Int) (h18 : y ≠ 2018) (h21 : y ≠ 2021) :
    (select_dataset k y).year = 2018 ∧ (select_dataset k y).data_file.isSome = true := by
  have hor : ¬ (y = 2018 ∨ y = 2021) := by
    rintro (h | h)
    · exact h18 h
    · exact h21 h
  rcases hk with rfl | rfl | rfl <;>
    simp [select_dataset, hor]

/-- Claim C7: for the social-infrastructure, housing-stress and
walkability indicators, any year outside the dataset years {2018, 2021}
is snapped to the default 2018 instead of failing (the data file stays
defined); for a dataset with no default - jobs with year 1999 - no file
is mapped and the request fails with an "Unsupported year" 400
response. -/
theorem C7_unsupported_year :
    (∀ k ∈ (["socinfra", "housing_stress", "walkability"] : List String),
      ∀ y : Int, y ≠ 2018 → y ≠ 2021 →
      (select_dataset k y).year = 2018 ∧ (select_dataset k y).data_file.isSome = true) ∧
    ((select_dataset "jobs" 1999).data_file = none) ∧
    (∀ (T : ℤ × ℤ → ℤ × ℤ) (pn : String) (precincts : List PrecFeature)
        (dataFeats : List DataFeature), pn ≠ "" →
      precinct_overlay T (some pn) 1999 (some "jobs") precincts dataFeats
        = .error (400, "Unsupported year " ++ toString (1999 : Int))) := by
  refine ⟨?_, rfl, ?_⟩
  · intro k hk y h18 h21
    refine select_dataset_snaps k ?_ y h18 h21
    simpa using hk
  · intro T pn precincts dataFeats hpn
    have hres : resolve_ind_key (some "jobs") = "jobs" := rfl
    have hfile : (select_dataset "jobs" 1999).data_file = none := rfl
    have hyear : (select_dataset "jobs" 1999).year = 1999 := rfl
    simp only [precinct_overlay, Option.getD_some, hres]
    rw [if_neg hpn]
    simp only [hfile, hyear]

/-- Witness for C7 at concrete inputs: walkability 1999 snaps, jobs 1999
yields the 400 error. -/
theorem C7_unsupported_year_witness :
    ((select_dataset "walkability" 1999).year = 2018 ∧
      (select_dataset "walkability" 1999).data_file.isSome = true) ∧
    precinct_overlay id (some "P") 1999 (some "jobs") precC1 []
      = .error (400, "Unsupported year " ++ toString (1999 : Int)) := by
  constructor
  · exact C7_unsupported_year.1 "walkability" (by simp) 1999 (by decide) (by decide)
  · exact C7_unsupported_year.2.2 id "P" precC1 [] (by simp)

/-- Claim C8: for indicators whose year is snapped to a default
(social infrastructure, housing stress, walkability), the `year` field of
a successful overlay response is the snapped year 2018, not the year the
client requested; in particular walkability with requested year 2011
yields a response whose year is 2018 ≠ 2011. -/
theorem C8_response_year_snapped :
    (∀ (T : ℤ × ℤ → ℤ × ℤ) (pn : Option String) (yReq : Int) (ind : Option String)
        (precincts : List PrecFeature) (dataFeats : List DataFeature)
        (res : OverlayResult),
      (resolve_ind_key ind = "socinfra" ∨ resolve_ind_key ind = "housing_stress" ∨
        resolve_ind_key ind = "walkability") →
      yReq ≠ 2018 → yReq ≠ 2021 →
      precinct_overlay T pn yReq ind precincts dataFeats = .ok res →
      res.year = 2018) ∧
    (∀ (T : ℤ × ℤ → ℤ × ℤ) (pn : Option String) (precincts : List PrecFeature)
        (dataFeats : List DataFeature) (res : OverlayResult),
      precinct_overlay T pn 2011 (some "walkability") precincts dataFeats = .ok res →
      res.year = 2018 ∧ res.year ≠ 2011) := by
  have main : ∀ (T : ℤ × ℤ → ℤ × ℤ) (pn : Option String) (yReq : Int)
      (ind : Option String) (precincts : List PrecFeature)
      (dataFeats : List DataFeature) (res : OverlayResult),
      (resolve_ind_key ind = "socinfra" ∨ resolve_ind_key ind = "housing_stress" ∨
        resolve_ind_key ind = "walkability") →
      yReq ≠ 2018 → yReq ≠ 2021 →
      precinct_overlay T pn yReq ind precincts dataFeats = .ok res →
      res.year = 2018 := by
    intro T pn yReq ind precincts dataFeats res hk h18 h21 h
    obtain ⟨pname, pu, cp, hres⟩ :=
      precinct_overlay_ok_shape T pn yReq ind precincts dataFeats res h
    have hyear : res.year = (select_dataset (resolve_ind_key ind) yReq).year := by
      subst hres
      rfl
    rw [hyear]
    exact (select_dataset_snaps (resolve_ind_key ind) hk yReq h18 h21).1
  refine ⟨main, ?_⟩
  intro T pn precincts dataFeats res h
  have h2018 : res.year = 2018 :=
    main T pn 2011 (some "walkability") precincts dataFeats res
      (Or.inr (Or.inr rfl)) (by decide) (by decide) h
  exact ⟨h2018, by rw [h2018]; decide⟩

/-- The overlay result of the C8 witness run: walkability requested for
2011 against the concrete precinct, with an empty dataset. -/
def resC8 : OverlayResult :=
  assembleResult "P" 2018 "SA1" id ({(0, 0), (1, 0)} : Geom) "SA1_CODE_2"
    (some "Walkabi_18") []

/-- Witness for C8: the concrete run returns year 2018 although 2011 was
requested. -/
theorem C8_response_year_snapped_witness :
    resC8.year = 2018 ∧ resC8.year ≠ 2011 :=
  C8_response_year_snapped.2 id (some "P") precC1 [] resC8 (by rfl)
